import Mathlib

/-!
Shallow embedding of the RNC-analysis service (src/main.py, the hosted
backend, and src/old/main.py, the locally-hosted backend).

Both files define the same pydantic data model `Rnc` (twelve fields,
eleven required strings plus the optional `CONCLUSAO`), a request wrapper
`RequisicaoAnalista`, and one POST handler `analise_rnc` that

  * short-circuits on an empty record list with a fixed response,
  * serializes the records with `json.dumps(..., indent=2)`,
  * builds a two-message prompt (system + user f-string) and hands it to
    the generation backend together with fixed decoding options,
  * parses the returned text with `json.loads` and returns it, collapsing
    every exception of that block into `HTTPException(500, detail)`.

The generation backend and `json.loads` are external collaborators: they
are modelled as an environment of functions `Except String String` /
`Except String Json`.  Each handler also returns the list of backend
calls it made, so that "the generation service is never invoked" and
"what was handed to the service" are stated about the trace.
-/

/-- Python `str.isspace` characters (the set `str.strip()` removes), by code point. -/
def pyIsSpace (c : Char) : Bool :=
  c.toNat = 32 || (9 ≤ c.toNat && c.toNat ≤ 13) ||
  (28 ≤ c.toNat && c.toNat ≤ 31) || c.toNat = 133 || c.toNat = 160 ||
  c.toNat = 5760 || (8192 ≤ c.toNat && c.toNat ≤ 8202) ||
  c.toNat = 8232 || c.toNat = 8233 || c.toNat = 8239 || c.toNat = 8287 ||
  c.toNat = 12288

/-- Python `str.strip()`: drop leading and trailing whitespace. -/
def pyStrip (s : String) : String :=
  ⟨(((s.data.dropWhile pyIsSpace).reverse.dropWhile pyIsSpace).reverse)⟩

/-- A JSON-decoded Python value as pydantic's `mode='before'` validators see
it: a string, `None`, or anything else (number, list, dict, bool — all of
which pydantic rejects for a `str` field without coercion). -/
inductive PyValue where
  | str (s : String)
  | null
  | other
deriving DecidableEq, Repr

/-- One element of the request's `dados_rnc` array, before validation:
a JSON object as an association list. -/
def RawRnc := List (String × PyValue)

/-- Key lookup in a raw record. -/
def lookupRaw : RawRnc → String → Option PyValue
  | [], _ => none
  | (k, v) :: rest, name => if k = name then some v else lookupRaw rest name

/-- The validated `Rnc` model: field names and order as declared in the
source (`class Rnc(BaseModel)`). -/
structure Rnc where
  RNC : String
  ANO : String
  PRIORIDADE : String
  COD_PRODUTO : String
  CLASSIFICACAO : String
  DESCRICAO : String
  ORIGEM : String
  CLIENTE : String
  STATUS : String
  REGISTRO : String
  CONCLUSAO : Option String
  DEPARTAMENTO_DESTINO : String
deriving DecidableEq, Repr

/-- Validation of one required `str` field: the `trim_string` validator
(`mode='before'`) strips string values, then pydantic requires a string.
The error message names the field, as pydantic's report does. -/
def reqField (raw : RawRnc) (name : String) : Except String String :=
  match lookupRaw raw name with
  | some (.str s) => .ok (pyStrip s)
  | some _ => .error (name ++ ": Input should be a valid string")
  | none => .error (name ++ ": Field required")

/-- Validation of the `Optional[str]` field `CONCLUSAO` (default `None`). -/
def optField (raw : RawRnc) (name : String) : Except String (Option String) :=
  match lookupRaw raw name with
  | some (.str s) => .ok (some (pyStrip s))
  | some .null => .ok none
  | some .other => .error (name ++ ": Input should be a valid string")
  | none => .ok none

/-- Pydantic validation of one record, fields in declaration order; the
first violated field decides the reported error. -/
def validateRnc (raw : RawRnc) : Except String Rnc :=
  match reqField raw "RNC" with
  | .error e => .error e
  | .ok rnc =>
  match reqField raw "ANO" with
  | .error e => .error e
  | .ok ano =>
  match reqField raw "PRIORIDADE" with
  | .error e => .error e
  | .ok prioridade =>
  match reqField raw "COD_PRODUTO" with
  | .error e => .error e
  | .ok cod_produto =>
  match reqField raw "CLASSIFICACAO" with
  | .error e => .error e
  | .ok classificacao =>
  match reqField raw "DESCRICAO" with
  | .error e => .error e
  | .ok descricao =>
  match reqField raw "ORIGEM" with
  | .error e => .error e
  | .ok origem =>
  match reqField raw "CLIENTE" with
  | .error e => .error e
  | .ok cliente =>
  match reqField raw "STATUS" with
  | .error e => .error e
  | .ok status =>
  match reqField raw "REGISTRO" with
  | .error e => .error e
  | .ok registro =>
  match optField raw "CONCLUSAO" with
  | .error e => .error e
  | .ok conclusao =>
  match reqField raw "DEPARTAMENTO_DESTINO" with
  | .error e => .error e
  | .ok departamento_destino =>
  .ok { RNC := rnc, ANO := ano, PRIORIDADE := prioridade,
        COD_PRODUTO := cod_produto, CLASSIFICACAO := classificacao,
        DESCRICAO := descricao, ORIGEM := origem, CLIENTE := cliente,
        STATUS := status, REGISTRO := registro, CONCLUSAO := conclusao,
        DEPARTAMENTO_DESTINO := departamento_destino }

/-- Validation of the whole `dados_rnc` list (`RequisicaoAnalista`). -/
def validateRequest : List RawRnc → Except String (List Rnc)
  | [] => .ok []
  | raw :: rest =>
    match validateRnc raw with
    | .error e => .error e
    | .ok r =>
      match validateRequest rest with
      | .error e => .error e
      | .ok rs => .ok (r :: rs)

/-- The required string fields of `Rnc`, in declaration order. -/
def requiredNames : List String :=
  ["RNC", "ANO", "PRIORIDADE", "COD_PRODUTO", "CLASSIFICACAO", "DESCRICAO",
   "ORIGEM", "CLIENTE", "STATUS", "REGISTRO", "DEPARTAMENTO_DESTINO"]

/-- A JSON value (what `json.loads` yields and `json.dumps` consumes). -/
inductive Json where
  | null
  | bool (b : Bool)
  | num (n : Int)
  | str (s : String)
  | arr (xs : List Json)
  | obj (kvs : List (String × Json))

/-- Lower-case hex digit. -/
def toHexDigit (n : Nat) : Char :=
  if n < 10 then Char.ofNat (48 + n) else Char.ofNat (87 + n)

/-- Four lower-case hex digits, as CPython's `'\\u{0:04x}'.format`. -/
def toHex4 (n : Nat) : String :=
  ⟨[toHexDigit (n / 4096 % 16), toHexDigit (n / 256 % 16),
    toHexDigit (n / 16 % 16), toHexDigit (n % 16)]⟩

/-- One character, escaped as CPython's `json.dumps` with `ensure_ascii`
(the default) escapes it: short escapes, printable ASCII verbatim, other
characters as `\uXXXX` with surrogate pairs above the BMP. -/
def jsonEscapeChar (c : Char) : String :=
  if c = '"' then "\\\""
  else if c = '\\' then "\\\\"
  else if c = '\n' then "\\n"
  else if c = '\r' then "\\r"
  else if c = '\t' then "\\t"
  else if c.toNat = 8 then "\\b"
  else if c.toNat = 12 then "\\f"
  else if 32 ≤ c.toNat && c.toNat ≤ 126 then String.singleton c
  else if c.toNat < 65536 then "\\u" ++ toHex4 c.toNat
  else "\\u" ++ toHex4 (55296 + (c.toNat - 65536) / 1024) ++
       "\\u" ++ toHex4 (56320 + (c.toNat - 65536) % 1024)

/-- A JSON string literal as `json.dumps` renders it. -/
def jsonStr (s : String) : String :=
  "\"" ++ String.join (s.data.map jsonEscapeChar) ++ "\""

/-- `indent=2` padding at nesting level `lvl`. -/
def pad (lvl : Nat) : String := String.join (List.replicate lvl "  ")

/-- Join with a separator (the comma-newline separators `json.dumps` puts
between array items and object entries). -/
def joinSep (sep : String) : List String → String
  | [] => ""
  | [x] => x
  | x :: y :: ys => x ++ sep ++ joinSep sep (y :: ys)

mutual

/-- CPython `json.dumps(v, indent=2)` at nesting level `lvl`. -/
def dumps (lvl : Nat) : Json → String
  | .null => "null"
  | .bool b => if b then "true" else "false"
  | .num n => toString n
  | .str s => jsonStr s
  | .arr [] => "[]"
  | .arr (x :: xs) =>
      "[\n" ++ joinSep ",\n" (dumpsItems (lvl + 1) (x :: xs)) ++
      "\n" ++ pad lvl ++ "]"
  | .obj [] => "\x7b\x7d"
  | .obj (kv :: kvs) =>
      "\x7b\n" ++ joinSep ",\n" (dumpsEntries (lvl + 1) (kv :: kvs)) ++
      "\n" ++ pad lvl ++ "\x7d"

/-- Array items, each on its own indented line. -/
def dumpsItems (lvl : Nat) : List Json → List String
  | [] => []
  | x :: xs => (pad lvl ++ dumps lvl x) :: dumpsItems lvl xs

/-- Object entries, `"key": value`, each on its own indented line. -/
def dumpsEntries (lvl : Nat) : List (String × Json) → List String
  | [] => []
  | (k, v) :: kvs =>
      (pad lvl ++ jsonStr k ++ ": " ++ dumps lvl v) :: dumpsEntries lvl kvs

end

/-- The entries of `item.model_dump()`, fields in declaration order,
`CONCLUSAO = None` rendered as `null`. -/
def rncEntries (r : Rnc) : List (String × Json) :=
  [("RNC", .str r.RNC), ("ANO", .str r.ANO),
   ("PRIORIDADE", .str r.PRIORIDADE), ("COD_PRODUTO", .str r.COD_PRODUTO),
   ("CLASSIFICACAO", .str r.CLASSIFICACAO), ("DESCRICAO", .str r.DESCRICAO),
   ("ORIGEM", .str r.ORIGEM), ("CLIENTE", .str r.CLIENTE),
   ("STATUS", .str r.STATUS), ("REGISTRO", .str r.REGISTRO),
   ("CONCLUSAO", match r.CONCLUSAO with
                 | some s => .str s
                 | none => .null),
   ("DEPARTAMENTO_DESTINO", .str r.DEPARTAMENTO_DESTINO)]

/-- `item.model_dump()`: the record as a JSON object. -/
def rncToJson (r : Rnc) : Json := .obj (rncEntries r)

/-- `texto_dados = json.dumps([item.model_dump() for item in payload.dados_rnc], indent=2)`. -/
def textoDados (rs : List Rnc) : String :=
  dumps 0 (.arr (rs.map rncToJson))

/-- One record's serialized entry inside the `texto_dados` array (level 1). -/
def dumpRnc (r : Rnc) : String := dumps 1 (rncToJson r)

def systemContent : String := "\n                Você é um Auditor ISO 9001 Sênior (perfil analítico e independente). \n                Seu objetivo é produzir um parecer técnico robusto, rastreável e baseado estritamente nos dados de RNC fornecidos.\n\n                Postura e regras:\n                - Extraia fatos objetivos e padrões; não aceite explicações vagas.\n                - Evite respostas genéricas: tudo deve estar ancorado em informações presentes nos dados.\n                - Diferencie falha pontual vs. falha sistêmica (processo/controle).\n                - Identifique tendências (recorrência por cliente, produto, etapa, motivo, setor, fornecedor, turno, operador, máquina, lote, data, ou qualquer marcador existente).\n                - Se algum campo crítico estiver ausente/ambíguo, registre explicitamente a limitação e o impacto disso na análise (sem inventar dados).\n                - Linguagem técnica e clara, sem jargões vazios.\n                - Saída obrigatória: JSON puro, sem texto fora do JSON.\n                "

def uA : String := "\n                Analise detalhadamente estes dados de RNC (texto bruto abaixo). Atenha-se estritamente ao conteúdo fornecido:\n                "

def uB : String := "\n\n                INSTRUÇÕES OBRIGATÓRIAS PARA O PARECER:\n                1) Em 'resumo_geral':\n                - Escreva no mínimo 2 parágrafos.\n                - Conecte fatos entre si (o que aconteceu, onde se repete, qual o padrão, qual o indício de falha de processo).\n                - Cite explicitamente os códigos de produto e os clientes mencionados nos dados (nomes/códigos conforme aparecerem).\n                - Aponte recorrências e padrões com base em evidências dos dados (ex.: “ocorreu X vezes”, “repetiu em datas/lotes/OPs diferentes”, “concentrado em um cliente/produto”).\n                - Se os dados não permitirem afirmar recorrência, diga isso claramente e explique o que faltou.\n                - "

def uC : String := "\n\n                2) Em 'principais_causas':\n                - Liste somente causas que apareçam nos dados (causa informada, descrição de falha, etapa do processo, evidência repetida).\n                - Escreva causas como frases objetivas e auditáveis (ex.: “Falta de inspeção final registrada”, “Parâmetro de processo fora do padrão”, “Matéria-prima fora de especificação”).\n                - Não invente causa raiz; se a causa estiver indefinida, registre como “Causa não determinada nos registros” e explique no resumo.\n\n                3) Em 'analise_de_risco':\n                - "

def uD : String := " com base nos próprios dados.\n                - Justifique no texto (dentro do campo) considerando: recorrência, impacto no cliente, possibilidade de escape, severidade do defeito, status da RNC (aberta/fechada), e repetição por produto/cliente/lote/OP, quando houver.\n\n                4) Em 'sugestao_plano_acao':\n                - Proponha passos práticos e verificáveis, derivados das falhas relatadas e das lacunas de controle percebidas nos dados.\n                - Não cite requisitos da norma por número; descreva ações de forma operacional (ex.: “revisar ponto de controle X”, “reforçar critério de aceite”, “criar verificação de registro”, “bloquear lote até evidência”, etc.).\n                - Se não houver dados suficientes para um plano específico, proponha ações de coleta de evidência (ex.: “levantar histórico por produto/cliente”, “estratificar por causa/status”).\n\n                5) Em 'estatisticas':\n                - "

def uE : String := ".\n                - status_predominante: indique o status mais frequente encontrado nos dados (ex.: \"ABERTA\", \"FECHADA\", \"EM_ANDAMENTO\"). Se não existir status nos dados, retorne \"NAO_INFORMADO\".\n\n                IMPORTANTE:\n                - Não use bullet points fora do JSON.\n                - Não retorne markdown.\n                - Não inclua comentários.\n                - Não inclua campos extras.\n\n                Retorne EXCLUSIVAMENTE em JSON, exatamente com este esquema e tipos:\n                \x7b\n                \"resumo_geral\": \"string\",\n                \"principais_causas\": [\"string\", \"string\"],\n                "

def uF : String := "\n                \"sugestao_plano_acao\": \"string\",\n                \"estatisticas\": \x7b\n                    "

def uG : String := ",\n                    \"status_predominante\": \"string\"\n                \x7d\n                \x7d\n                "


/-- The user f-string of both handlers, as the concatenation of its
contiguous text pieces around the two substitution holes
(`\x7btexto_dados\x7d` and `\x7blen(payload.dados_rnc)\x7d` twice); the
pieces carrying the sentences the claims quote are kept as separate
literals at their exact position in the template. -/
def userContent (texto_dados : String) (n : Nat) : String :=
  uA ++ texto_dados ++
  uB ++ "Ignore RNC com status \"Registrada\"." ++
  uC ++ "Classifique como \"baixo\", \"medio\" ou \"alto\"" ++
  uD ++ "total_analisado: use exatamente " ++ toString n ++
  uE ++ "\"analise_de_risco\": \"baixo|medio|alto\"," ++
  uF ++ "\"total_analisado\": " ++ toString n ++
  uG

/-- A chat message (`\x7b"role": ..., "content": ...\x7d`). -/
structure Message where
  role : String
  content : String
deriving DecidableEq, Repr

/-- The two-message prompt both handlers build for a record list. -/
def messagesFor (rs : List Rnc) : List Message :=
  [{ role := "system", content := systemContent },
   { role := "user", content := userContent (textoDados rs) rs.length }]

/-- The request `client.chat.completions.create(...)` receives in
src/main.py. -/
structure GroqReq where
  model : String
  messages : List Message
  temperature : ℚ
  response_format : String
deriving DecidableEq, Repr

/-- The decoding options dict of the `client.chat(...)` call in
src/old/main.py. -/
structure OllamaOptions where
  temperature : ℚ
  num_ctx : Nat
  num_thread : Nat
  num_predict : Nat
  top_p : ℚ
deriving DecidableEq, Repr

/-- The request `client.chat(...)` receives in src/old/main.py. -/
structure OllamaReq where
  model : String
  messages : List Message
  format : String
  options : OllamaOptions
deriving DecidableEq, Repr

/-- The completion request src/main.py builds for a record list. -/
def groqReq (rs : List Rnc) : GroqReq :=
  { model := "llama-3.3-70b-versatile",
    messages := messagesFor rs,
    temperature := 0.2,
    response_format := "json_object" }

/-- The chat request src/old/main.py builds for a record list
(`contexto_dinamico = max(2048, qtd_rnc * 150)`). -/
def ollamaReq (rs : List Rnc) : OllamaReq :=
  { model := "llama3.2:latest",
    messages := messagesFor rs,
    format := "json",
    options := { temperature := 0.1,
                 num_ctx := max 2048 (rs.length * 150),
                 num_thread := 8,
                 num_predict := 500,
                 top_p := 0.1 } }

/-- The external collaborators of src/main.py: the hosted completion
backend (returns the completion text or raises) and `json.loads`
(returns a JSON value or raises). -/
structure GroqEnv where
  create : GroqReq → Except String String
  loads : String → Except String Json

/-- The external collaborators of src/old/main.py. -/
structure OllamaEnv where
  chat : OllamaReq → Except String String
  loads : String → Except String Json

/-- What the endpoint hands back to the routing layer. -/
inductive Outcome where
  | success (j : Json)
  | validationError (msg : String)
  | serverError (detail : String)

/-- The fixed dict src/main.py returns when `dados_rnc` is empty. -/
def emptyResultGroq : Json :=
  .obj [("resumo_geral", .str "Não foram identificados registros de Não Conformidade (RNC) para os parâmetros selecionados. Os processos operam dentro da normalidade estatística."),
        ("principais_causas", .arr [.str "Operação estável"]),
        ("analise_de_risco", .str "baixo"),
        ("sugestao_plano_acao", .str "Manter protocolos de monitoramento preventivo."),
        ("estatisticas", .obj [("total_analisado", .num 0),
                               ("status_predominante", .str "N/A")])]

/-- The fixed dict src/old/main.py returns when `dados_rnc` is empty. -/
def emptyResultOllama : Json :=
  .obj [("resumo_geral", .str "Nenhum registro encontrado para análise."),
        ("principais_causas", .arr []),
        ("analise_de_risco", .str "baixo"),
        ("sugestao_plano_acao", .str "Manter monitoramento."),
        ("estatisticas", .obj [("total_analisado", .num 0),
                               ("status_predominante", .str "N/A")])]

/-- The handler body of src/main.py on an already-validated payload,
together with the list of completion calls it performs.  The `try` block
turns both a failing backend call and a `json.loads` failure into
`HTTPException(status_code=500, detail=str(e))`. -/
def analise_rnc (env : GroqEnv) (dados_rnc : List Rnc) :
    Outcome × List GroqReq :=
  if dados_rnc.isEmpty then
    (.success emptyResultGroq, [])
  else
    let req := groqReq dados_rnc
    match env.create req with
    | .error e => (.serverError e, [req])
    | .ok content =>
      match env.loads content with
      | .error e => (.serverError e, [req])
      | .ok j => (.success j, [req])

/-- The handler body of src/old/main.py on an already-validated payload.
Its `except` clause prefixes the detail with "Erro no servidor local: ". -/
def analise_rnc_local (env : OllamaEnv) (dados_rnc : List Rnc) :
    Outcome × List OllamaReq :=
  if dados_rnc.isEmpty then
    (.success emptyResultOllama, [])
  else
    let req := ollamaReq dados_rnc
    match env.chat req with
    | .error e => (.serverError ("Erro no servidor local: " ++ e), [req])
    | .ok content =>
      match env.loads content with
      | .error e => (.serverError ("Erro no servidor local: " ++ e), [req])
      | .ok j => (.success j, [req])

/-- The full src/main.py endpoint: pydantic validation of the request
body, then the handler; a validation failure is rejected (FastAPI 422)
before the handler body runs, so no completion call is made. -/
def endpoint (env : GroqEnv) (body : List RawRnc) : Outcome × List GroqReq :=
  match validateRequest body with
  | .error e => (.validationError e, [])
  | .ok rncs => analise_rnc env rncs

/-- The full src/old/main.py endpoint. -/
def endpointLocal (env : OllamaEnv) (body : List RawRnc) :
    Outcome × List OllamaReq :=
  match validateRequest body with
  | .error e => (.validationError e, [])
  | .ok rncs => analise_rnc_local env rncs

/-- The comma-separated entry block of `texto_dados` (one indented entry
per record, in input order). -/
def innerEntries (rs : List Rnc) : String :=
  joinSep ",\n" (dumpsItems 1 (rs.map rncToJson))

/-- A record violates the input-shape contract at a required field: the
key is absent or its value is not a string. -/
def reqViolation (raw : RawRnc) (name : String) : Prop :=
  lookupRaw raw name = none ∨
  ∃ pv, lookupRaw raw name = some pv ∧ ∀ s, pv ≠ PyValue.str s

/-- The pydantic error text for a field, as `reqField` reports it. -/
def namesField (e name : String) : Prop :=
  e = name ++ ": Field required" ∨ e = name ++ ": Input should be a valid string"

/-- Entry lookup in a JSON object's association list. -/
def lookupEntry : List (String × Json) → String → Option Json
  | [], _ => none
  | (k, v) :: rest, key => if k = key then some v else lookupEntry rest key

/-- Field access on a JSON object. -/
def jsonField : Json → String → Option Json
  | .obj kvs, key => lookupEntry kvs key
  | _, _ => none

/-- Two-level field access (`j[k1][k2]`). -/
def jsonField2 (j : Json) (k1 k2 : String) : Option Json :=
  match jsonField j k1 with
  | some inner => jsonField inner k2
  | none => none

/-- The value of a named field of a validated record (`CONCLUSAO` is the
optional one). -/
def rncGet (r : Rnc) (name : String) : Option String :=
  if name = "RNC" then some r.RNC
  else if name = "ANO" then some r.ANO
  else if name = "PRIORIDADE" then some r.PRIORIDADE
  else if name = "COD_PRODUTO" then some r.COD_PRODUTO
  else if name = "CLASSIFICACAO" then some r.CLASSIFICACAO
  else if name = "DESCRICAO" then some r.DESCRICAO
  else if name = "ORIGEM" then some r.ORIGEM
  else if name = "CLIENTE" then some r.CLIENTE
  else if name = "STATUS" then some r.STATUS
  else if name = "REGISTRO" then some r.REGISTRO
  else if name = "CONCLUSAO" then r.CONCLUSAO
  else if name = "DEPARTAMENTO_DESTINO" then some r.DEPARTAMENTO_DESTINO
  else none

/-- A concrete validated record used by the witnesses: its `STATUS` is
the reserved value "Registrada" and its `DESCRICAO` is the trimmed "X". -/
def sampleRnc : Rnc :=
  { RNC := "1", ANO := "2024", PRIORIDADE := "Alta", COD_PRODUTO := "P-7",
    CLASSIFICACAO := "Critica", DESCRICAO := "X", ORIGEM := "Producao",
    CLIENTE := "ACME", STATUS := "Registrada", REGISTRO := "01/02/2024",
    CONCLUSAO := none, DEPARTAMENTO_DESTINO := "Qualidade" }

/-- The raw request body that validates to `sampleRnc` (its `DESCRICAO`
arrives padded with whitespace; `CONCLUSAO` is absent). -/
def sampleRaw : RawRnc :=
  [("RNC", .str "1"), ("ANO", .str "2024"), ("PRIORIDADE", .str "Alta"),
   ("COD_PRODUTO", .str "P-7"), ("CLASSIFICACAO", .str "Critica"),
   ("DESCRICAO", .str "  X  "), ("ORIGEM", .str "Producao"),
   ("CLIENTE", .str "ACME"), ("STATUS", .str "Registrada"),
   ("REGISTRO", .str "01/02/2024"),
   ("DEPARTAMENTO_DESTINO", .str "Qualidade")]

/-- `sampleRaw` with the required `STATUS` key missing. -/
def sampleRawNoStatus : RawRnc :=
  [("RNC", .str "1"), ("ANO", .str "2024"), ("PRIORIDADE", .str "Alta"),
   ("COD_PRODUTO", .str "P-7"), ("CLASSIFICACAO", .str "Critica"),
   ("DESCRICAO", .str "  X  "), ("ORIGEM", .str "Producao"),
   ("CLIENTE", .str "ACME"),
   ("REGISTRO", .str "01/02/2024"),
   ("DEPARTAMENTO_DESTINO", .str "Qualidade")]

/-- A hosted backend whose call raises. -/
def envFailCreate : GroqEnv :=
  { create := fun _ => .error "boom", loads := fun _ => .error "no parse attempted" }

/-- A hosted backend that answers text which `json.loads` rejects. -/
def envBadJson : GroqEnv :=
  { create := fun _ => .ok "not json",
    loads := fun _ => .error "Expecting value: line 1 column 1 (char 0)" }

/-- A hosted backend that answers an empty JSON object. -/
def envOkJson : GroqEnv :=
  { create := fun _ => .ok "\x7b\x7d", loads := fun _ => .ok (.obj []) }

/-- A local backend whose call raises. -/
def envLocalFail : OllamaEnv :=
  { chat := fun _ => .error "boom", loads := fun _ => .error "no parse attempted" }

/-- A local backend that answers text which `json.loads` rejects. -/
def envLocalBadJson : OllamaEnv :=
  { chat := fun _ => .ok "not json",
    loads := fun _ => .error "Expecting value: line 1 column 1 (char 0)" }

/-- A local backend that answers an empty JSON object. -/
def envLocalOkJson : OllamaEnv :=
  { chat := fun _ => .ok "\x7b\x7d", loads := fun _ => .ok (.obj []) }

/-! ### Helper lemmas -/

theorem pad_zero : pad 0 = "" := rfl

theorem pad_one : pad 1 = "  " := rfl

theorem pad_two : pad 2 = "    " := rfl

theorem nlBracket : "\n" ++ "]" = "\n]" := rfl

theorem reqField_ok {raw : RawRnc} {name v : String}
    (h : reqField raw name = .ok v) :
    ∃ s, lookupRaw raw name = some (.str s) ∧ v = pyStrip s := by
  unfold reqField at h
  split at h
  · next s heq => exact ⟨s, heq, by injection h with he; exact he.symm⟩
  · cases h
  · cases h

theorem reqField_ok_of_str {raw : RawRnc} {name s : String}
    (h : lookupRaw raw name = some (.str s)) :
    reqField raw name = .ok (pyStrip s) := by
  unfold reqField
  rw [h]

theorem optField_ok {raw : RawRnc} {name : String} {v : Option String}
    (h : optField raw name = .ok v) :
    (v = none ∧ (lookupRaw raw name = none ∨ lookupRaw raw name = some .null)) ∨
    ∃ s, lookupRaw raw name = some (.str s) ∧ v = some (pyStrip s) := by
  unfold optField at h
  split at h
  · next s heq => exact .inr ⟨s, heq, by injection h with he; exact he.symm⟩
  · next heq => exact .inl ⟨by injection h with he; exact he.symm, .inr heq⟩
  · cases h
  · next heq => exact .inl ⟨by injection h with he; exact he.symm, .inl heq⟩

theorem reqField_error {raw : RawRnc} {name e : String}
    (h : reqField raw name = .error e) :
    reqViolation raw name ∧ namesField e name := by
  unfold reqField at h
  split at h
  · cases h
  · next pv hne heq =>
    refine ⟨.inr ⟨pv, heq, ?_⟩, .inr (by injection h with he; exact he.symm)⟩
    intro s hs
    exact hne s hs
  · next heq =>
    exact ⟨.inl heq, .inl (by injection h with he; exact he.symm)⟩

theorem reqField_error_of_violation {raw : RawRnc} {name : String}
    (h : reqViolation raw name) : ∃ e, reqField raw name = .error e := by
  unfold reqField
  rcases h with h | ⟨pv, heq, hne⟩
  · rw [h]; exact ⟨_, rfl⟩
  · rw [heq]
    cases pv with
    | str s => exact absurd rfl (hne s)
    | null => exact ⟨_, rfl⟩
    | other => exact ⟨_, rfl⟩

theorem validateRnc_ok {raw : RawRnc} {r : Rnc}
    (h : validateRnc raw = .ok r) :
    reqField raw "RNC" = .ok r.RNC ∧ reqField raw "ANO" = .ok r.ANO ∧
    reqField raw "PRIORIDADE" = .ok r.PRIORIDADE ∧
    reqField raw "COD_PRODUTO" = .ok r.COD_PRODUTO ∧
    reqField raw "CLASSIFICACAO" = .ok r.CLASSIFICACAO ∧
    reqField raw "DESCRICAO" = .ok r.DESCRICAO ∧
    reqField raw "ORIGEM" = .ok r.ORIGEM ∧
    reqField raw "CLIENTE" = .ok r.CLIENTE ∧
    reqField raw "STATUS" = .ok r.STATUS ∧
    reqField raw "REGISTRO" = .ok r.REGISTRO ∧
    optField raw "CONCLUSAO" = .ok r.CONCLUSAO ∧
    reqField raw "DEPARTAMENTO_DESTINO" = .ok r.DEPARTAMENTO_DESTINO := by
  unfold validateRnc at h
  repeat' split at h
  all_goals
    first
    | exact (Except.noConfusion h)
    | (injection h with h2; subst h2; simp_all)

theorem validateRnc_error {raw : RawRnc} {e : String}
    (h : validateRnc raw = .error e) :
    (∃ name, name ∈ requiredNames ∧ reqField raw name = .error e) ∨
    optField raw "CONCLUSAO" = .error e := by
  unfold validateRnc at h
  repeat' split at h
  all_goals
    first
    | exact (Except.noConfusion h)
    | (injection h with he; subst he;
       first
       | exact .inr (by assumption)
       | (refine .inl ⟨_, ?_, by assumption⟩; simp [requiredNames]))

theorem validateRnc_error_of_violation {raw : RawRnc} {name : String}
    (hmem : name ∈ requiredNames) (hv : reqViolation raw name) :
    ∃ e, validateRnc raw = .error e := by
  cases hval : validateRnc raw with
  | error e => exact ⟨e, rfl⟩
  | ok r =>
    exfalso
    have hok := validateRnc_ok hval
    obtain ⟨e, he⟩ := reqField_error_of_violation hv
    fin_cases hmem <;> simp_all

theorem validateRequest_error {body : List RawRnc} {e : String}
    (h : validateRequest body = .error e) :
    ∃ raw, raw ∈ body ∧ validateRnc raw = .error e := by
  induction body with
  | nil => simp [validateRequest] at h
  | cons raw rest ih =>
    unfold validateRequest at h
    split at h
    · next heq => exact ⟨raw, by simp, by injection h with he; rw [← he]; exact heq⟩
    · split at h
      · next heq =>
        obtain ⟨raw', hm, hv⟩ := ih (by injection h with he; rw [← he]; exact heq)
        exact ⟨raw', by simp [hm], hv⟩
      · cases h

theorem validateRequest_error_of_mem {body : List RawRnc} {raw : RawRnc}
    (hm : raw ∈ body) (hf : ∃ e, validateRnc raw = .error e) :
    ∃ e, validateRequest body = .error e := by
  induction body with
  | nil => cases hm
  | cons head rest ih =>
    cases hval : validateRnc head with
    | error e => exact ⟨e, by unfold validateRequest; rw [hval]⟩
    | ok r =>
      rcases List.mem_cons.mp hm with heq | hmem
      · obtain ⟨e, he⟩ := hf
        rw [← heq] at hval
        rw [hval] at he
        cases he
      · obtain ⟨e, he⟩ := ih hmem
        refine ⟨e, ?_⟩
        unfold validateRequest
        rw [hval, he]

theorem joinSep_cons {sep x : String} {l : List String} (h : l ≠ []) :
    joinSep sep (x :: l) = x ++ sep ++ joinSep sep l := by
  cases l with
  | nil => exact absurd rfl h
  | cons y ys => rfl

theorem joinSep_mem {sep s : String} :
    ∀ {l : List String}, s ∈ l → ∃ a b, joinSep sep l = a ++ s ++ b := by
  intro l
  induction l with
  | nil => intro h; cases h
  | cons x xs ih =>
    intro h
    rcases List.mem_cons.mp h with heq | hmem
    · subst heq
      cases xs with
      | nil => exact ⟨"", "", by simp [joinSep, String.empty_append, String.append_empty]⟩
      | cons y ys =>
        exact ⟨"", sep ++ joinSep sep (y :: ys),
          by simp [joinSep, String.empty_append, String.append_assoc]⟩
    · obtain ⟨a, b, hab⟩ := ih hmem
      have hne : xs ≠ [] := by intro hx; rw [hx] at hmem; cases hmem
      refine ⟨x ++ sep ++ a, b, ?_⟩
      rw [joinSep_cons hne, hab]
      simp [String.append_assoc]

theorem dumpsItems_eq_map : ∀ (lvl : Nat) (xs : List Json),
    dumpsItems lvl xs = xs.map (fun x => pad lvl ++ dumps lvl x)
  | _, [] => rfl
  | lvl, x :: xs => by rw [dumpsItems, dumpsItems_eq_map lvl xs, List.map_cons]

theorem dumpsEntries_eq_map : ∀ (lvl : Nat) (kvs : List (String × Json)),
    dumpsEntries lvl kvs = kvs.map (fun kv => pad lvl ++ jsonStr kv.1 ++ ": " ++ dumps lvl kv.2)
  | _, [] => rfl
  | lvl, (k, v) :: kvs => by
      rw [dumpsEntries, dumpsEntries_eq_map lvl kvs, List.map_cons]

theorem textoDados_eq {rs : List Rnc} (h : rs ≠ []) :
    textoDados rs = "[\n" ++ innerEntries rs ++ "\n]" := by
  cases rs with
  | nil => exact absurd rfl h
  | cons r rest =>
    show dumps 0 (.arr ((r :: rest).map rncToJson)) = _
    rw [List.map_cons, dumps]
    simp only [innerEntries, List.map_cons, pad_zero, String.append_empty,
      String.empty_append, String.append_assoc, nlBracket]

theorem textoDados_singleton (r : Rnc) :
    textoDados [r] = "[\n" ++ "  " ++ dumpRnc r ++ "\n]" := by
  rw [textoDados_eq (by simp)]
  simp only [innerEntries, List.map_cons, List.map_nil, dumpsItems,
    joinSep, pad_one, dumpRnc, String.append_assoc]

theorem textoDados_cons {rs : List Rnc} (r : Rnc) (h : rs ≠ []) :
    textoDados (r :: rs) =
      "[\n" ++ "  " ++ dumpRnc r ++ ",\n" ++ innerEntries rs ++ "\n]" := by
  rw [textoDados_eq (by simp)]
  have hne : dumpsItems 1 (rs.map rncToJson) ≠ [] := by
    cases rs with
    | nil => exact absurd rfl h
    | cons a as => rw [List.map_cons, dumpsItems]; simp
  simp only [innerEntries, List.map_cons, dumpsItems, joinSep_cons hne,
    pad_one, dumpRnc, String.append_assoc]

theorem textoDados_mem_split {rs : List Rnc} {r : Rnc} (h : r ∈ rs) :
    ∃ a b, textoDados rs = a ++ dumpRnc r ++ b := by
  have hne : rs ≠ [] := by intro h0; rw [h0] at h; cases h
  have hmem : (pad 1 ++ dumps 1 (rncToJson r)) ∈ dumpsItems 1 (rs.map rncToJson) := by
    rw [dumpsItems_eq_map]
    exact List.mem_map_of_mem _ (List.mem_map_of_mem _ h)
  obtain ⟨a, b, hab⟩ := joinSep_mem hmem
  refine ⟨"[\n" ++ a ++ "  ", b ++ "\n]", ?_⟩
  rw [textoDados_eq hne]
  unfold innerEntries
  rw [hab]
  simp [pad_one, dumpRnc, String.append_assoc]

theorem dumps_obj_cons (lvl : Nat) (kv : String × Json) (kvs : List (String × Json)) :
    dumps lvl (.obj (kv :: kvs)) =
      "\x7b\n" ++ joinSep ",\n" (dumpsEntries (lvl + 1) (kv :: kvs)) ++
      "\n" ++ pad lvl ++ "\x7d" := by
  rw [dumps]

theorem dumpRnc_entry_split {r : Rnc} {k : String} {v : Json}
    (h : (k, v) ∈ rncEntries r) :
    ∃ a b, dumpRnc r = a ++ (jsonStr k ++ ": " ++ dumps 2 v) ++ b := by
  have hmem : (pad 2 ++ jsonStr k ++ ": " ++ dumps 2 v) ∈ dumpsEntries 2 (rncEntries r) := by
    rw [dumpsEntries_eq_map]
    exact List.mem_map.mpr ⟨(k, v), h, by simp [String.append_assoc]⟩
  obtain ⟨a, b, hab⟩ := joinSep_mem hmem
  obtain ⟨kv, kvs, hkv⟩ : ∃ kv kvs, rncEntries r = kv :: kvs := ⟨_, _, rfl⟩
  refine ⟨"\x7b\n" ++ a ++ "    ", b ++ "\n" ++ "  " ++ "\x7d", ?_⟩
  rw [dumpRnc, rncToJson, hkv, dumps_obj_cons, ← hkv, hab]
  simp [pad_one, pad_two, String.append_assoc]

theorem analise_rnc_empty (env : GroqEnv) :
    analise_rnc env [] = (.success emptyResultGroq, []) := rfl

theorem analise_rnc_local_empty (env : OllamaEnv) :
    analise_rnc_local env [] = (.success emptyResultOllama, []) := rfl

theorem analise_rnc_create_error {env : GroqEnv} {rs : List Rnc} {m : String}
    (h : rs ≠ []) (hc : env.create (groqReq rs) = .error m) :
    analise_rnc env rs = (.serverError m, [groqReq rs]) := by
  cases rs with
  | nil => exact absurd rfl h
  | cons a l =>
    unfold analise_rnc
    simp only [List.isEmpty_cons, if_false, Bool.false_eq_true, hc]

theorem analise_rnc_parse_error {env : GroqEnv} {rs : List Rnc} {c m : String}
    (h : rs ≠ []) (hc : env.create (groqReq rs) = .ok c)
    (hp : env.loads c = .error m) :
    analise_rnc env rs = (.serverError m, [groqReq rs]) := by
  cases rs with
  | nil => exact absurd rfl h
  | cons a l =>
    unfold analise_rnc
    simp only [List.isEmpty_cons, if_false, Bool.false_eq_true, hc, hp]

theorem analise_rnc_ok {env : GroqEnv} {rs : List Rnc} {c : String} {j : Json}
    (h : rs ≠ []) (hc : env.create (groqReq rs) = .ok c)
    (hp : env.loads c = .ok j) :
    analise_rnc env rs = (.success j, [groqReq rs]) := by
  cases rs with
  | nil => exact absurd rfl h
  | cons a l =>
    unfold analise_rnc
    simp only [List.isEmpty_cons, if_false, Bool.false_eq_true, hc, hp]

theorem analise_rnc_local_chat_error {env : OllamaEnv} {rs : List Rnc} {m : String}
    (h : rs ≠ []) (hc : env.chat (ollamaReq rs) = .error m) :
    analise_rnc_local env rs = (.serverError ("Erro no servidor local: " ++ m), [ollamaReq rs]) := by
  cases rs with
  | nil => exact absurd rfl h
  | cons a l =>
    unfold analise_rnc_local
    simp only [List.isEmpty_cons, if_false, Bool.false_eq_true, hc]

theorem analise_rnc_local_parse_error {env : OllamaEnv} {rs : List Rnc} {c m : String}
    (h : rs ≠ []) (hc : env.chat (ollamaReq rs) = .ok c)
    (hp : env.loads c = .error m) :
    analise_rnc_local env rs = (.serverError ("Erro no servidor local: " ++ m), [ollamaReq rs]) := by
  cases rs with
  | nil => exact absurd rfl h
  | cons a l =>
    unfold analise_rnc_local
    simp only [List.isEmpty_cons, if_false, Bool.false_eq_true, hc, hp]

theorem analise_rnc_local_ok {env : OllamaEnv} {rs : List Rnc} {c : String} {j : Json}
    (h : rs ≠ []) (hc : env.chat (ollamaReq rs) = .ok c)
    (hp : env.loads c = .ok j) :
    analise_rnc_local env rs = (.success j, [ollamaReq rs]) := by
  cases rs with
  | nil => exact absurd rfl h
  | cons a l =>
    unfold analise_rnc_local
    simp only [List.isEmpty_cons, if_false, Bool.false_eq_true, hc, hp]

theorem analise_rnc_calls (env : GroqEnv) (rs : List Rnc) :
    (analise_rnc env rs).2 = if rs.isEmpty then [] else [groqReq rs] := by
  cases rs with
  | nil => rfl
  | cons a l =>
    unfold analise_rnc
    simp only [List.isEmpty_cons, if_false, Bool.false_eq_true]
    cases hc : env.create (groqReq (a :: l)) with
    | error e => rfl
    | ok c => cases hp : env.loads c <;> simp [hp]

theorem analise_rnc_local_calls (env : OllamaEnv) (rs : List Rnc) :
    (analise_rnc_local env rs).2 = if rs.isEmpty then [] else [ollamaReq rs] := by
  cases rs with
  | nil => rfl
  | cons a l =>
    unfold analise_rnc_local
    simp only [List.isEmpty_cons, if_false, Bool.false_eq_true]
    cases hc : env.chat (ollamaReq (a :: l)) with
    | error e => rfl
    | ok c => cases hp : env.loads c <;> simp [hp]

theorem optField_error {raw : RawRnc} {name e : String}
    (h : optField raw name = .error e) :
    lookupRaw raw name = some .other ∧
    e = name ++ ": Input should be a valid string" := by
  unfold optField at h
  split at h
  · cases h
  · cases h
  · next heq => exact ⟨heq, by injection h with he; exact he.symm⟩
  · cases h

theorem reqField_det {raw : RawRnc} {name s fv : String}
    (hf : reqField raw name = .ok fv)
    (hl : lookupRaw raw name = some (.str s)) : fv = pyStrip s := by
  obtain ⟨s2, hl2, hv2⟩ := reqField_ok hf
  rw [hl] at hl2
  injection hl2 with h3
  injection h3 with h4
  rw [hv2, h4]

theorem optField_det {raw : RawRnc} {name s : String} {fv : Option String}
    (hf : optField raw name = .ok fv)
    (hl : lookupRaw raw name = some (.str s)) : fv = some (pyStrip s) := by
  rcases optField_ok hf with ⟨hnone, hcase | hcase⟩ | ⟨s2, hl2, hv2⟩
  · rw [hl] at hcase; cases hcase
  · rw [hl] at hcase; injection hcase with h3; cases h3
  · rw [hl] at hl2
    injection hl2 with h3
    injection h3 with h4
    rw [hv2, h4]

theorem textoDados_entry_split {rs : List Rnc} {r : Rnc} {k : String} {v : Json}
    (hr : r ∈ rs) (he : (k, v) ∈ rncEntries r) :
    ∃ a b, textoDados rs = a ++ (jsonStr k ++ ": " ++ dumps 2 v) ++ b := by
  obtain ⟨a, b, hab⟩ := textoDados_mem_split hr
  obtain ⟨a2, b2, hab2⟩ := dumpRnc_entry_split he
  exact ⟨a ++ a2, b2 ++ b, by rw [hab, hab2]; simp [String.append_assoc]⟩

/-- C1, counterexample: the claim's final clause — that the two backend
variants return one and the same fixed result on an empty record
sequence — is false on the code: with any backends, the hosted variant's
empty-input result differs from the local variant's (their narrative
texts, cause lists and recommendation texts differ). -/
theorem c1_counterexample :
    (analise_rnc envOkJson []).1 ≠ (analise_rnc_local envLocalOkJson []).1 := by
  intro h
  simp [analise_rnc, analise_rnc_local, emptyResultGroq, emptyResultOllama] at h

/-- C1, amended: for an empty record sequence each variant immediately
returns its own fixed stable-state result — risk "baixo",
total_analisado 0, status_predominante "N/A", and a generic monitoring
recommendation — and the generation service is never invoked; but the
two fixed results are not one and the same. -/
theorem c1_theorem : ∀ (envG : GroqEnv) (envO : OllamaEnv),
    analise_rnc envG [] = (.success emptyResultGroq, []) ∧
    analise_rnc_local envO [] = (.success emptyResultOllama, []) ∧
    jsonField emptyResultGroq "analise_de_risco" = some (.str "baixo") ∧
    jsonField emptyResultOllama "analise_de_risco" = some (.str "baixo") ∧
    jsonField2 emptyResultGroq "estatisticas" "total_analisado" = some (.num 0) ∧
    jsonField2 emptyResultOllama "estatisticas" "total_analisado" = some (.num 0) ∧
    jsonField2 emptyResultGroq "estatisticas" "status_predominante" = some (.str "N/A") ∧
    jsonField2 emptyResultOllama "estatisticas" "status_predominante" = some (.str "N/A") ∧
    jsonField emptyResultGroq "sugestao_plano_acao" =
      some (.str "Manter protocolos de monitoramento preventivo.") ∧
    jsonField emptyResultOllama "sugestao_plano_acao" =
      some (.str "Manter monitoramento.") ∧
    emptyResultGroq ≠ emptyResultOllama := by
  intro envG envO
  refine ⟨rfl, rfl, rfl, rfl, rfl, rfl, rfl, rfl, rfl, rfl, ?_⟩
  intro h
  simp [emptyResultGroq, emptyResultOllama] at h

/-- C7: for every non-empty input the local variant hands the generation
service exactly one request, whose decoding options set the context
window to `max 2048 (150 * n)` for `n` input records, fixed
low-randomness parameters (temperature 0.1, top_p 0.1, 500 predicted
tokens, 8 threads) and forced JSON output mode. -/
theorem c7_theorem : ∀ (env : OllamaEnv) (rs : List Rnc), rs ≠ [] →
    (analise_rnc_local env rs).2 = [ollamaReq rs] ∧
    (ollamaReq rs).options.num_ctx = max 2048 (150 * rs.length) ∧
    (ollamaReq rs).options.temperature = 0.1 ∧
    (ollamaReq rs).options.top_p = 0.1 ∧
    (ollamaReq rs).options.num_predict = 500 ∧
    (ollamaReq rs).options.num_thread = 8 ∧
    (ollamaReq rs).format = "json" := by
  intro env rs h
  refine ⟨?_, ?_, rfl, rfl, rfl, rfl, rfl⟩
  · rw [analise_rnc_local_calls, if_neg]
    simp [List.isEmpty_iff, h]
  · show max 2048 (rs.length * 150) = max 2048 (150 * rs.length)
    rw [Nat.mul_comm]

/-- C7, witness at one concrete record. -/
theorem c7_witness :
    (analise_rnc_local envLocalOkJson [sampleRnc]).2 = [ollamaReq [sampleRnc]] ∧
    (ollamaReq [sampleRnc]).options.num_ctx = max 2048 (150 * 1) ∧
    (ollamaReq [sampleRnc]).options.temperature = 0.1 ∧
    (ollamaReq [sampleRnc]).options.top_p = 0.1 ∧
    (ollamaReq [sampleRnc]).options.num_predict = 500 ∧
    (ollamaReq [sampleRnc]).options.num_thread = 8 ∧
    (ollamaReq [sampleRnc]).format = "json" :=
  c7_theorem envLocalOkJson [sampleRnc] (by simp)

/-- C10: prompt construction is deterministic — with equal record
sequences the completion requests handed to the generation service
(system and user messages, model and decoding options) are identical
whatever the backends do, in both variants: the trace is a function of
the records alone. -/
theorem c10_theorem : ∀ (env1 env2 : GroqEnv) (env3 env4 : OllamaEnv) (rs : List Rnc),
    (analise_rnc env1 rs).2 = (analise_rnc env2 rs).2 ∧
    (analise_rnc_local env3 rs).2 = (analise_rnc_local env4 rs).2 ∧
    (analise_rnc env1 rs).2 = (if rs.isEmpty then [] else [groqReq rs]) ∧
    (analise_rnc_local env3 rs).2 = (if rs.isEmpty then [] else [ollamaReq rs]) := by
  intro env1 env2 env3 env4 rs
  refine ⟨?_, ?_, analise_rnc_calls env1 rs, analise_rnc_local_calls env3 rs⟩
  · rw [analise_rnc_calls, analise_rnc_calls]
  · rw [analise_rnc_local_calls, analise_rnc_local_calls]

/-- C2: for every non-empty record sequence the single completion
request handed to the generation service carries the user prompt
`userContent (textoDados rs) rs.length`, and that prompt text contains
the literal record count at both statistics.total_analisado positions:
in the numbered instruction ("total_analisado: use exatamente n") and in
the JSON schema block ("total_analisado": n). -/
theorem c2_theorem : ∀ (envG : GroqEnv) (envO : OllamaEnv) (rs : List Rnc), rs ≠ [] →
    (analise_rnc envG rs).2 = [groqReq rs] ∧
    (analise_rnc_local envO rs).2 = [ollamaReq rs] ∧
    (groqReq rs).messages = messagesFor rs ∧
    (ollamaReq rs).messages = messagesFor rs ∧
    (messagesFor rs).map Message.content =
      [systemContent, userContent (textoDados rs) rs.length] ∧
    ∃ a b c, userContent (textoDados rs) rs.length =
      a ++ ("total_analisado: use exatamente " ++ toString rs.length) ++
      b ++ ("\"total_analisado\": " ++ toString rs.length) ++ c := by
  intro envG envO rs h
  have hne : ¬rs.isEmpty := by simp [List.isEmpty_iff, h]
  refine ⟨by rw [analise_rnc_calls, if_neg hne],
          by rw [analise_rnc_local_calls, if_neg hne], rfl, rfl, rfl,
          uA ++ textoDados rs ++ uB ++ "Ignore RNC com status \"Registrada\"." ++
            uC ++ "Classifique como \"baixo\", \"medio\" ou \"alto\"" ++ uD,
          uE ++ "\"analise_de_risco\": \"baixo|medio|alto\"," ++ uF,
          uG, ?_⟩
  simp only [userContent, String.append_assoc]

/-- C2, witness at one concrete record. -/
theorem c2_witness :
    (analise_rnc envOkJson [sampleRnc]).2 = [groqReq [sampleRnc]] ∧
    (analise_rnc_local envLocalOkJson [sampleRnc]).2 = [ollamaReq [sampleRnc]] ∧
    (groqReq [sampleRnc]).messages = messagesFor [sampleRnc] ∧
    (ollamaReq [sampleRnc]).messages = messagesFor [sampleRnc] ∧
    (messagesFor [sampleRnc]).map Message.content =
      [systemContent, userContent (textoDados [sampleRnc]) 1] ∧
    ∃ a b c, userContent (textoDados [sampleRnc]) 1 =
      a ++ ("total_analisado: use exatamente " ++ toString 1) ++
      b ++ ("\"total_analisado\": " ++ toString 1) ++ c :=
  c2_theorem envOkJson envLocalOkJson [sampleRnc] (by simp)

/-- C6: for every non-empty input the user prompt text declares the risk
classification as exactly the closed set baixo/medio/alto, both in the
instruction ("Classifique como ...") and in the schema
("analise_de_risco": "baixo|medio|alto"); the only locally produced risk
value is the "baixo" of the two empty-input results, and on the
non-empty path any successful result is exactly what the backend
returned through `json.loads` — the core fabricates no value. -/
theorem c6_theorem : ∀ (envG : GroqEnv) (envO : OllamaEnv) (rs : List Rnc), rs ≠ [] →
    (∃ a b, userContent (textoDados rs) rs.length =
      a ++ "Classifique como \"baixo\", \"medio\" ou \"alto\"" ++ b) ∧
    (∃ a b, userContent (textoDados rs) rs.length =
      a ++ "\"analise_de_risco\": \"baixo|medio|alto\"," ++ b) ∧
    jsonField emptyResultGroq "analise_de_risco" = some (.str "baixo") ∧
    jsonField emptyResultOllama "analise_de_risco" = some (.str "baixo") ∧
    (∀ j calls, analise_rnc envG rs = (.success j, calls) →
      ∃ c, envG.create (groqReq rs) = .ok c ∧ envG.loads c = .ok j) ∧
    (∀ j calls, analise_rnc_local envO rs = (.success j, calls) →
      ∃ c, envO.chat (ollamaReq rs) = .ok c ∧ envO.loads c = .ok j) := by
  intro envG envO rs h
  refine ⟨⟨uA ++ textoDados rs ++ uB ++ "Ignore RNC com status \"Registrada\"." ++ uC,
           uD ++ "total_analisado: use exatamente " ++ toString rs.length ++
             uE ++ "\"analise_de_risco\": \"baixo|medio|alto\"," ++ uF ++
             "\"total_analisado\": " ++ toString rs.length ++ uG,
           by simp only [userContent, String.append_assoc]⟩,
          ⟨uA ++ textoDados rs ++ uB ++ "Ignore RNC com status \"Registrada\"." ++
             uC ++ "Classifique como \"baixo\", \"medio\" ou \"alto\"" ++ uD ++
             "total_analisado: use exatamente " ++ toString rs.length ++ uE,
           uF ++ "\"total_analisado\": " ++ toString rs.length ++ uG,
           by simp only [userContent, String.append_assoc]⟩,
          rfl, rfl, ?_, ?_⟩
  · intro j calls hj
    cases rs with
    | nil => exact absurd rfl h
    | cons a l =>
      unfold analise_rnc at hj
      simp only [List.isEmpty_cons, if_false, Bool.false_eq_true] at hj
      cases hc : envG.create (groqReq (a :: l)) with
      | error e => rw [hc] at hj; cases hj
      | ok c =>
        rw [hc] at hj
        cases hp : envG.loads c with
        | error e => simp only [hp] at hj; cases hj
        | ok j2 =>
          simp only [hp] at hj
          exact ⟨c, rfl, by rw [hp]; injection hj with h1 h2; injection h1 with h3; rw [h3]⟩
  · intro j calls hj
    cases rs with
    | nil => exact absurd rfl h
    | cons a l =>
      unfold analise_rnc_local at hj
      simp only [List.isEmpty_cons, if_false, Bool.false_eq_true] at hj
      cases hc : envO.chat (ollamaReq (a :: l)) with
      | error e => rw [hc] at hj; cases hj
      | ok c =>
        rw [hc] at hj
        cases hp : envO.loads c with
        | error e => simp only [hp] at hj; cases hj
        | ok j2 =>
          simp only [hp] at hj
          exact ⟨c, rfl, by rw [hp]; injection hj with h1 h2; injection h1 with h3; rw [h3]⟩

/-- C6, witness at one concrete record. -/
theorem c6_witness :
    (∃ a b, userContent (textoDados [sampleRnc]) 1 =
      a ++ "Classifique como \"baixo\", \"medio\" ou \"alto\"" ++ b) ∧
    (∃ a b, userContent (textoDados [sampleRnc]) 1 =
      a ++ "\"analise_de_risco\": \"baixo|medio|alto\"," ++ b) ∧
    jsonField emptyResultGroq "analise_de_risco" = some (.str "baixo") ∧
    jsonField emptyResultOllama "analise_de_risco" = some (.str "baixo") ∧
    (∃ c, envOkJson.create (groqReq [sampleRnc]) = .ok c ∧
      envOkJson.loads c = .ok (.obj [])) := by
  obtain ⟨h1, h2, h3, h4, h5, h6⟩ :=
    c6_theorem envOkJson envLocalOkJson [sampleRnc] (by simp)
  exact ⟨h1, h2, h3, h4, h5 (.obj []) [groqReq [sampleRnc]] rfl⟩

/-- C9: for every non-empty input the user prompt contains the literal
instruction to ignore records with status "Registrada", states the total
as the exact input length, and still serializes every record — including
those with status "Registrada" — into the data block. -/
theorem c9_theorem : ∀ (rs : List Rnc), rs ≠ [] →
    (∃ a b, userContent (textoDados rs) rs.length =
      a ++ "Ignore RNC com status \"Registrada\"." ++ b) ∧
    (∃ a b, userContent (textoDados rs) rs.length =
      a ++ ("total_analisado: use exatamente " ++ toString rs.length) ++ b) ∧
    (∀ r, r ∈ rs → ∃ a b, textoDados rs = a ++ dumpRnc r ++ b) := by
  intro rs h
  refine ⟨⟨uA ++ textoDados rs ++ uB,
           uC ++ "Classifique como \"baixo\", \"medio\" ou \"alto\"" ++ uD ++
             "total_analisado: use exatamente " ++ toString rs.length ++
             uE ++ "\"analise_de_risco\": \"baixo|medio|alto\"," ++ uF ++
             "\"total_analisado\": " ++ toString rs.length ++ uG,
           by simp only [userContent, String.append_assoc]⟩,
          ⟨uA ++ textoDados rs ++ uB ++ "Ignore RNC com status \"Registrada\"." ++
             uC ++ "Classifique como \"baixo\", \"medio\" ou \"alto\"" ++ uD,
           uE ++ "\"analise_de_risco\": \"baixo|medio|alto\"," ++ uF ++
             "\"total_analisado\": " ++ toString rs.length ++ uG,
           by simp only [userContent, String.append_assoc]⟩,
          fun r hr => textoDados_mem_split hr⟩

/-- C9, witness: the one-record scenario whose single record has status
"Registrada" — the instruction is present, the stated total is 1, and
the record is still serialized. -/
theorem c9_witness :
    (∃ a b, userContent (textoDados [sampleRnc]) 1 =
      a ++ "Ignore RNC com status \"Registrada\"." ++ b) ∧
    (∃ a b, userContent (textoDados [sampleRnc]) 1 =
      a ++ ("total_analisado: use exatamente " ++ toString 1) ++ b) ∧
    (∃ a b, textoDados [sampleRnc] = a ++ dumpRnc sampleRnc ++ b) ∧
    sampleRnc.STATUS = "Registrada" := by
  obtain ⟨h1, h2, h3⟩ := c9_theorem [sampleRnc] (by simp)
  exact ⟨h1, h2, h3 sampleRnc (by simp), rfl⟩

/-- C3: after input validation every failure collapses into the single
HTTPException(500) kind carrying the underlying message, with exactly
one completion call and no retry — whether the remote call itself raises
or its text output fails `json.loads` — and the empty-input branch never
fails, in both variants (the local variant prefixes its detail text). -/
theorem c3_theorem : ∀ (envG : GroqEnv) (envO : OllamaEnv) (rs : List Rnc),
    (analise_rnc envG [] = (.success emptyResultGroq, []) ∧
     analise_rnc_local envO [] = (.success emptyResultOllama, [])) ∧
    (rs ≠ [] → ∀ m, envG.create (groqReq rs) = .error m →
      analise_rnc envG rs = (.serverError m, [groqReq rs])) ∧
    (rs ≠ [] → ∀ c m, envG.create (groqReq rs) = .ok c →
      envG.loads c = .error m →
      analise_rnc envG rs = (.serverError m, [groqReq rs])) ∧
    (rs ≠ [] → ∀ m, envO.chat (ollamaReq rs) = .error m →
      analise_rnc_local envO rs =
        (.serverError ("Erro no servidor local: " ++ m), [ollamaReq rs])) ∧
    (rs ≠ [] → ∀ c m, envO.chat (ollamaReq rs) = .ok c →
      envO.loads c = .error m →
      analise_rnc_local envO rs =
        (.serverError ("Erro no servidor local: " ++ m), [ollamaReq rs])) := by
  intro envG envO rs
  exact ⟨⟨analise_rnc_empty envG, analise_rnc_local_empty envO⟩,
         fun h m hc => analise_rnc_create_error h hc,
         fun h c m hc hp => analise_rnc_parse_error h hc hp,
         fun h m hc => analise_rnc_local_chat_error h hc,
         fun h c m hc hp => analise_rnc_local_parse_error h hc hp⟩

/-- C3, witness: concrete backends — one whose call raises "boom", one
answering non-JSON text — each produce the 500 error carrying the
message, with exactly one completion call; the empty branch succeeds. -/
theorem c3_witness :
    analise_rnc envFailCreate [] = (.success emptyResultGroq, []) ∧
    analise_rnc envFailCreate [sampleRnc] = (.serverError "boom", [groqReq [sampleRnc]]) ∧
    analise_rnc envBadJson [sampleRnc] =
      (.serverError "Expecting value: line 1 column 1 (char 0)", [groqReq [sampleRnc]]) ∧
    analise_rnc_local envLocalFail [sampleRnc] =
      (.serverError ("Erro no servidor local: " ++ "boom"), [ollamaReq [sampleRnc]]) ∧
    analise_rnc_local envLocalBadJson [sampleRnc] =
      (.serverError ("Erro no servidor local: " ++ "Expecting value: line 1 column 1 (char 0)"),
       [ollamaReq [sampleRnc]]) := by
  refine ⟨(c3_theorem envFailCreate envLocalFail [sampleRnc]).1.1, ?_, ?_, ?_, ?_⟩
  · exact (c3_theorem envFailCreate envLocalFail [sampleRnc]).2.1 (by simp) "boom" rfl
  · exact (c3_theorem envBadJson envLocalFail [sampleRnc]).2.2.1 (by simp)
      "not json" "Expecting value: line 1 column 1 (char 0)" rfl rfl
  · exact (c3_theorem envFailCreate envLocalFail [sampleRnc]).2.2.2.1 (by simp) "boom" rfl
  · exact (c3_theorem envFailCreate envLocalBadJson [sampleRnc]).2.2.2.2 (by simp)
      "not json" "Expecting value: line 1 column 1 (char 0)" rfl rfl

/-- C8: the serialized data block is the bracketed, comma-separated list
of one entry per input record: a singleton list yields exactly its
record's entry, consing a record onto a non-empty list prepends exactly
that record's entry and keeps the rest of the block verbatim (so order
is preserved and duplicates are kept), and every member record's entry
appears in the block. -/
theorem c8_theorem : ∀ (rs : List Rnc) (r : Rnc),
    (textoDados [r] = "[\n" ++ "  " ++ dumpRnc r ++ "\n]") ∧
    (rs ≠ [] →
      textoDados (r :: rs) =
        "[\n" ++ "  " ++ dumpRnc r ++ ",\n" ++ innerEntries rs ++ "\n]" ∧
      textoDados rs = "[\n" ++ innerEntries rs ++ "\n]") ∧
    (r ∈ rs → ∃ a b, textoDados rs = a ++ dumpRnc r ++ b) := by
  intro rs r
  exact ⟨textoDados_singleton r,
         fun h => ⟨textoDados_cons r h, textoDados_eq h⟩,
         fun h => textoDados_mem_split h⟩

/-- C8, witness: a duplicated concrete record keeps two entries, in
order. -/
theorem c8_witness :
    textoDados [sampleRnc] = "[\n" ++ "  " ++ dumpRnc sampleRnc ++ "\n]" ∧
    textoDados [sampleRnc, sampleRnc] =
      "[\n" ++ "  " ++ dumpRnc sampleRnc ++ ",\n" ++ innerEntries [sampleRnc] ++ "\n]" ∧
    textoDados [sampleRnc] = "[\n" ++ innerEntries [sampleRnc] ++ "\n]" ∧
    (∃ a b, textoDados [sampleRnc, sampleRnc] = a ++ dumpRnc sampleRnc ++ b) := by
  obtain ⟨h1, h2, h3⟩ := c8_theorem [sampleRnc] sampleRnc
  obtain ⟨h4, h5⟩ := h2 (by simp)
  exact ⟨h1, h4, h5, (c8_theorem [sampleRnc, sampleRnc] sampleRnc).2.2 (by simp)⟩

/-- C4: a request in which some record misses a required field or gives
it a non-string value is rejected by validation — in both variants, with
no completion call made and thus before any prompt is constructed — with
a client-input error whose text names a violated field. -/
theorem c4_theorem : ∀ (envG : GroqEnv) (envO : OllamaEnv) (body : List RawRnc)
    (raw : RawRnc) (name : String),
    raw ∈ body → name ∈ requiredNames → reqViolation raw name →
    ∃ e, endpoint envG body = (.validationError e, []) ∧
         endpointLocal envO body = (.validationError e, []) ∧
         ∃ raw2 name2, raw2 ∈ body ∧
           ((name2 ∈ requiredNames ∧ reqViolation raw2 name2) ∨
            (name2 = "CONCLUSAO" ∧ lookupRaw raw2 "CONCLUSAO" = some .other)) ∧
           namesField e name2 := by
  intro envG envO body raw name hmem hname hviol
  obtain ⟨e0, he0⟩ := validateRnc_error_of_violation hname hviol
  obtain ⟨e, he⟩ := validateRequest_error_of_mem hmem ⟨e0, he0⟩
  refine ⟨e, by unfold endpoint; rw [he], by unfold endpointLocal; rw [he], ?_⟩
  obtain ⟨raw2, hm2, hv2⟩ := validateRequest_error he
  rcases validateRnc_error hv2 with ⟨name2, hmem2, herr⟩ | hopt
  · obtain ⟨hviol2, hnames⟩ := reqField_error herr
    exact ⟨raw2, name2, hm2, .inl ⟨hmem2, hviol2⟩, hnames⟩
  · obtain ⟨hlook, hmsg⟩ := optField_error hopt
    exact ⟨raw2, "CONCLUSAO", hm2, .inr ⟨rfl, hlook⟩, .inr hmsg⟩

/-- C4, witness: a concrete body whose record misses `STATUS` is
rejected with no completion call. -/
theorem c4_witness :
    ∃ e, endpoint envOkJson [sampleRawNoStatus] = (.validationError e, []) ∧
         endpointLocal envLocalOkJson [sampleRawNoStatus] = (.validationError e, []) ∧
         ∃ raw2 name2, raw2 ∈ [sampleRawNoStatus] ∧
           ((name2 ∈ requiredNames ∧ reqViolation raw2 name2) ∨
            (name2 = "CONCLUSAO" ∧ lookupRaw raw2 "CONCLUSAO" = some .other)) ∧
           namesField e name2 :=
  c4_theorem envOkJson envLocalOkJson [sampleRawNoStatus] sampleRawNoStatus "STATUS"
    (by simp) (by simp [requiredNames]) (Or.inl rfl)

/-- C5: pydantic validation maps every supplied string field — required
ones and the optional `CONCLUSAO` — to exactly its whitespace-stripped
value, and the data block of the prompt renders each record's fields
verbatim from those values (so an input of "  X  " reaches the prompt as
exactly "X"). -/
theorem c5_theorem : ∀ (raw : RawRnc) (r : Rnc) (name s : String),
    validateRnc raw = .ok r →
    lookupRaw raw name = some (.str s) →
    (name ∈ requiredNames → rncGet r name = some (pyStrip s)) ∧
    (name = "CONCLUSAO" → r.CONCLUSAO = some (pyStrip s)) ∧
    (∀ rs k v, r ∈ rs → (k, v) ∈ rncEntries r →
      ∃ a b, textoDados rs = a ++ (jsonStr k ++ ": " ++ dumps 2 v) ++ b) := by
  intro raw r name s hval hlook
  obtain ⟨h1, h2, h3, h4, h5, h6, h7, h8, h9, h10, h11, h12⟩ := validateRnc_ok hval
  refine ⟨?_, ?_, fun rs k v hr he => textoDados_entry_split hr he⟩
  · intro hmem
    fin_cases hmem <;>
      simp only [rncGet, if_true, if_false, reduceIte] <;>
      exact congrArg some (reqField_det (by assumption) hlook)
  · intro hname
    subst hname
    exact optField_det h11 hlook

/-- C5, witness: the record arriving with `DESCRICAO = "  X  "`
validates to "X", and the rendered data block contains exactly
`"DESCRICAO": "X"`. -/
theorem c5_witness :
    rncGet sampleRnc "DESCRICAO" = some (pyStrip "  X  ") ∧
    pyStrip "  X  " = "X" ∧
    (∃ a b, textoDados [sampleRnc] =
      a ++ (jsonStr "DESCRICAO" ++ ": " ++ dumps 2 (.str "X")) ++ b) := by
  obtain ⟨hA, hB, hC⟩ := c5_theorem sampleRaw sampleRnc "DESCRICAO" "  X  " rfl rfl
  exact ⟨hA (by simp [requiredNames]), rfl,
         hC [sampleRnc] "DESCRICAO" (.str sampleRnc.DESCRICAO)
           (by simp) (by simp [rncEntries])⟩
